import Mathlib

/-!
Shallow embedding of `src/task1.py` (class `WeatherDashboard`), the core of
the weather-dashboard repository: the demo-data synthesizer
(`generate_demo_data`), the two fetch-with-fallback adapters
(`fetch_current_weather`, `fetch_forecast`), the forecast normalizer
(`process_forecast_data`) and the daily aggregation performed inside
`create_dashboard`.

Modelling conventions:
- Python floats are modelled as real numbers (`ℝ`) where the source computes
  with `np.sin` and random noise, and as rationals (`ℚ`) where values are
  plain parsed JSON numbers (every IEEE float literal is a rational).
- Epoch timestamps are integers of seconds; `base_time` (`datetime.now()`)
  enters as the truncated epoch `t0 : ℕ`, and
  `int((base_time + timedelta(hours=3*i)).timestamp())` is `t0 + 10800*i`
  (the fractional second of `base_time` is the same at every point, so the
  truncation distributes).
- Randomness (`np.random.uniform`, `np.random.random`, `np.random.choice`)
  is modelled by explicit draw functions `ℕ → ℝ` (one draw per point index),
  universally quantified in the theorems, with the documented range bounds
  as hypotheses where a claim needs them.
- Python dictionaries from parsed JSON are structures with `Option` fields;
  a `KeyError`/`IndexError` on a missing key (the spec's `MissingFieldError`)
  is the `none` case, surfaced as `Except.error`.
-/

namespace Task1

/-- Python `int(x)` on a float: truncation toward zero. -/
noncomputable def pyInt (x : ℝ) : ℤ := if 0 ≤ x then ⌊x⌋ else ⌈x⌉

/-- Python `round(x, 1)`: rounding to one decimal place.  (Python uses
round-half-to-even at exact ties; Mathlib `round` is half-up.  The two differ
only on exact multiples of 0.05, and no claim depends on tie behaviour.) -/
noncomputable def pyRound1 (x : ℝ) : ℝ := (round (10 * x) : ℤ) / 10

/-- The three condition categories drawn by `np.random.choice(['Clear', 'Clouds', 'Rain'], ...)`. -/
inductive WeatherKind where
  | Clear
  | Clouds
  | Rain
deriving DecidableEq, Inhabited

/-- The `'main'` sub-dictionary of one synthesized forecast point
(`task1.py` lines 54-59). -/
structure DemoMain where
  temp : ℝ
  feels_like : ℝ
  humidity : ℤ
  pressure : ℤ
deriving Inhabited

/-- One entry of the synthesized `forecast_list` (`task1.py` lines 52-63). -/
structure DemoPoint where
  dt : ℕ
  main : DemoMain
  wind_speed : ℝ
  weather_main : WeatherKind
  weather_description : String
deriving Inhabited

/-- `int(60 + 20 * np.sin(i * np.pi / 12) + np.random.uniform(-5, 5))`
(`task1.py` line 57), with the uniform draw passed in as `noise`. -/
noncomputable def humidity_demo (i : ℕ) (noise : ℝ) : ℤ :=
  pyInt (60 + 20 * Real.sin (i * Real.pi / 12) + noise)

/-- `int(1010 + 10 * np.sin(i * np.pi / 20))` (`task1.py` line 58). -/
noncomputable def pressure_demo (i : ℕ) : ℤ :=
  pyInt (1010 + 10 * Real.sin (i * Real.pi / 20))

/-- `temp = 18 + 5 * np.sin(i * np.pi / 8) + np.random.uniform(-2, 2)`
(`task1.py` line 50), before rounding. -/
noncomputable def temp_raw_demo (i : ℕ) (noise : ℝ) : ℝ :=
  18 + 5 * Real.sin (i * Real.pi / 8) + noise

/-- The forecast point appended for index `i` in the loop of
`generate_demo_data` (`task1.py` lines 47-63).  `t0` is the truncated epoch
of `base_time`; `tN`, `hN`, `wN`, `wc` are the per-index random draws. -/
noncomputable def demo_point (t0 : ℕ) (tN hN wN : ℕ → ℝ) (wc : ℕ → WeatherKind) (i : ℕ) :
    DemoPoint where
  dt := t0 + 10800 * i
  main :=
    { temp := pyRound1 (temp_raw_demo i (tN i))
      feels_like := pyRound1 (temp_raw_demo i (tN i) - 1.5)
      humidity := humidity_demo i (hN i)
      pressure := pressure_demo i }
  wind_speed := pyRound1 (3 + 3 * wN i)
  weather_main := wc i
  weather_description := "demo weather"

/-- The synthesized 40-point forecast list `forecast_list` built by
`generate_demo_data` (`task1.py` lines 45-63): `for i in range(40)`. -/
noncomputable def generate_demo_forecast (t0 : ℕ) (tN hN wN : ℕ → ℝ)
    (wc : ℕ → WeatherKind) : List DemoPoint :=
  (List.range 40).map (demo_point t0 tN hN wN wc)

/-- Flat view of the `current` demo dictionary (`task1.py` lines 32-41). -/
structure CurrentData where
  temp : ℚ
  feels_like : ℚ
  humidity : ℚ
  pressure : ℚ
  wind_speed : ℚ
  weather_main : String
  weather_description : String
deriving DecidableEq, Inhabited

/-- The fixed current-weather demo record of `generate_demo_data`
(`task1.py` lines 32-41). -/
def generate_demo_current : CurrentData where
  temp := 18.5
  feels_like := 17.2
  humidity := 65
  pressure := 1013
  wind_speed := 4.5
  weather_main := "Clouds"
  weather_description := "partly cloudy"

/-! ## The fetch-with-fallback adapters

`fetch_current_weather` / `fetch_forecast` (`task1.py` lines 69-114) read the
adapter's `self.use_demo` flag; on a `requests.exceptions.RequestException`
they set the flag and recurse.  The network is modelled as an oracle value:
what `requests.get(...).json()` would deliver for this call, or the
exception. -/

/-- Outcome of one `requests.get` + `raise_for_status` + `json()` round trip:
parsed data, or a `requests.exceptions.RequestException`. -/
inductive NetResult (α : Type) where
  | ok (data : α)
  | exc
deriving DecidableEq

/-- `fetch_current_weather` (`task1.py` lines 69-92).  First argument is the
current `self.use_demo` flag; the result pairs the returned data with the
flag's value after the call (line 91 sets it on failure, then line 92
recurses). -/
def fetch_current_weather : Bool → NetResult CurrentData → CurrentData × Bool
  | true, _ => (generate_demo_current, true)
  | false, net =>
    match net with
    | .ok d => (d, false)
    | .exc => fetch_current_weather true net
termination_by b _ => cond b 0 1
decreasing_by decide

/-- `fetch_forecast` (`task1.py` lines 94-114), same shape as
`fetch_current_weather` but returning the forecast list; in demo mode it
returns `generate_demo_data`'s forecast half.  The network payload is modelled
with the same record shape the demo data has. -/
noncomputable def fetch_forecast (t0 : ℕ) (tN hN wN : ℕ → ℝ)
    (wc : ℕ → WeatherKind) :
    Bool → NetResult (List DemoPoint) → List DemoPoint × Bool
  | true, _ => (generate_demo_forecast t0 tN hN wN wc, true)
  | false, net =>
    match net with
    | .ok d => (d, false)
    | .exc => fetch_forecast t0 tN hN wN wc true net
termination_by b _ => cond b 0 1
decreasing_by decide

/-- Number of `requests.get` calls `fetch_current_weather` performs, following
the same recursion: the demo branch issues none, the live branch issues one
plus whatever the recursive fallback call issues. -/
def current_weather_requests : Bool → NetResult CurrentData → ℕ
  | true, _ => 0
  | false, net =>
    match net with
    | .ok _ => 1
    | .exc => 1 + current_weather_requests true net
termination_by b _ => cond b 0 1
decreasing_by decide

/-- Number of `requests.get` calls `fetch_forecast` performs. -/
def fetch_forecast_requests : Bool → NetResult (List DemoPoint) → ℕ
  | true, _ => 0
  | false, net =>
    match net with
    | .ok _ => 1
    | .exc => 1 + fetch_forecast_requests true net
termination_by b _ => cond b 0 1
decreasing_by decide

/-- Depth of self-recursion of `fetch_current_weather` (number of nested
recursive calls below the outer one), following the same recursion. -/
def fetch_current_depth : Bool → NetResult CurrentData → ℕ
  | true, _ => 0
  | false, net =>
    match net with
    | .ok _ => 0
    | .exc => 1 + fetch_current_depth true net
termination_by b _ => cond b 0 1
decreasing_by decide

/-- Depth of self-recursion of `fetch_forecast`. -/
def fetch_forecast_depth : Bool → NetResult (List DemoPoint) → ℕ
  | true, _ => 0
  | false, net =>
    match net with
    | .ok _ => 0
    | .exc => 1 + fetch_forecast_depth true net
termination_by b _ => cond b 0 1
decreasing_by decide

/-! ## The forecast normalizer `process_forecast_data`

Raw forecast records as parsed from JSON (`task1.py` lines 116-134 read
`item['dt']`, `item['main'][...]`, `item['wind']['speed']`,
`item['weather'][0][...]`).  Every dictionary key that the code reads is an
`Option` field (`none` = key absent = Python `KeyError`); the `[0]` on the
conditions list is `List.head?` (`none` = empty list = `IndexError`).  The
spec's `MissingFieldError` covers both. -/

/-- One entry of a raw per-point `'weather'` list. -/
structure RawWeather where
  main : Option String
  weather_description : Option String
deriving DecidableEq

/-- A raw per-point `'main'` dictionary. -/
structure RawMain where
  temp : Option ℚ
  feels_like : Option ℚ
  humidity : Option ℚ
  pressure : Option ℚ
deriving DecidableEq

/-- A raw per-point `'wind'` dictionary. -/
structure RawWind where
  speed : Option ℚ
deriving DecidableEq

/-- One item of the raw forecast's `'list'`. -/
structure RawPoint where
  dt : Option ℤ
  main : Option RawMain
  wind : Option RawWind
  weather : Option (List RawWeather)
deriving DecidableEq

/-- A raw forecast record `{'list': [...]}` (`task1.py` line 65 / the API's
5-day forecast response).  The `'list'` key is itself a key the code reads
(`forecast_data['list']`, line 122), so it too is an `Option` field: a truthy
record without it raises `KeyError` there. -/
structure RawForecast where
  list : Option (List RawPoint)
deriving DecidableEq

/-- `datetime.fromtimestamp`: decodes epoch seconds to a calendar timestamp.
The decoding is a bijection on epoch seconds, so the calendar timestamp is
represented by the epoch value itself. -/
def datetime_fromtimestamp (s : ℤ) : ℤ := s

/-- One row of the DataFrame built by `process_forecast_data`
(`task1.py` lines 123-132). -/
structure Row where
  datetime : ℤ
  temperature : ℚ
  feels_like : ℚ
  humidity : ℚ
  pressure : ℚ
  wind_speed : ℚ
  weather : String
  weather_description : String
deriving DecidableEq, Inhabited

/-- The spec's `MissingFieldError`: a `KeyError`/`IndexError` raised while an
item's fields are read (`task1.py` lines 124-131). -/
inductive MissingFieldError where
  | mk
deriving DecidableEq

/-- The dictionary appended to `data_list` for one forecast item
(`task1.py` lines 123-132); `none` when any of the accessed keys (or the
first element of the `'weather'` list) is absent. -/
def process_item (p : RawPoint) : Option Row :=
  match p.dt, p.main, p.wind, p.weather with
  | some dt, some m, some w, some wl =>
    match m.temp, m.feels_like, m.humidity, m.pressure, w.speed, wl.head? with
    | some t, some fl, some h, some pr, some ws, some w0 =>
      match w0.main, w0.weather_description with
      | some wm, some wd =>
        some
          { datetime := datetime_fromtimestamp dt
            temperature := t
            feels_like := fl
            humidity := h
            pressure := pr
            wind_speed := ws
            weather := wm
            weather_description := wd }
      | _, _ => none
    | _, _, _, _, _, _ => none
  | _, _, _, _ => none

/-- All fields `process_forecast_data` reads are present in `p`, including a
first element of the `'weather'` list with both of its keys. -/
def fields_complete (p : RawPoint) : Bool :=
  p.dt.isSome &&
    (match p.main with
     | some m =>
       m.temp.isSome && m.feels_like.isSome && m.humidity.isSome &&
         m.pressure.isSome
     | none => false) &&
    (match p.wind with
     | some w => w.speed.isSome
     | none => false) &&
    (match p.weather with
     | some wl =>
       match wl.head? with
       | some w0 => w0.main.isSome && w0.weather_description.isSome
       | none => false
     | none => false)

/-- The `for item in forecast_data['list']` loop (`task1.py` lines 121-132):
rows are appended in input order; the first missing key aborts the loop with
the error. -/
def process_list : List RawPoint → Option (List Row)
  | [] => some []
  | p :: ps =>
    match process_item p, process_list ps with
    | some row, some rows => some (row :: rows)
    | _, _ => none

/-- `process_forecast_data` (`task1.py` lines 116-134).  `none` input stands
for a falsy `forecast_data` (Python `None` or an empty record), which returns
`None` (line 119); otherwise `forecast_data['list']` is read — raising on a
record without `'list'` — the rows are built, and a missing field raises
(`Except.error`). -/
def process_forecast_data (forecast_data : Option RawForecast) :
    Except MissingFieldError (Option (List Row)) :=
  match forecast_data with
  | none => .ok none
  | some fd =>
    match fd.list with
    | none => .error .mk
    | some l =>
      match process_list l with
      | some rows => .ok (some rows)
      | none => .error .mk

/-- The body of `create_dashboard` after the two fetches (`task1.py` lines
142-268), with the fetch results as inputs: the guard at line 142 returns
`None` (modelled `.ok none`) when either result is falsy; otherwise the
forecast is normalized — an uncaught `MissingFieldError` propagates — and the
DataFrame is rendered and returned (`.ok (some df)`). -/
def create_dashboard_from (current : Option CurrentData)
    (forecast : Option RawForecast) :
    Except MissingFieldError (Option (List Row)) :=
  match current, forecast with
  | some _, some fd => process_forecast_data (some fd)
  | _, _ => .ok none

/-! ## Daily aggregation (`create_dashboard`, panel 9)

`task1.py` lines 242-246:
`df['date'] = df['datetime'].dt.date` followed by
`df.groupby('date').agg({'temperature': ['min', 'max', 'mean']}).reset_index()`
with columns renamed to `date, min_temp, max_temp, mean_temp`.
`groupby` sorts the group keys ascending. -/

/-- `datetime.date`: the calendar-date portion of a timestamp, one value per
day (`t.fdiv 86400` numbers the days; a fixed timezone offset of the decoded
calendar time shifts every row equally and does not affect grouping). -/
def dateOf (r : Row) : ℤ := r.datetime.fdiv 86400

/-- One row of `daily_stats` (`task1.py` line 246). -/
structure DailyStat where
  date : ℤ
  min_temp : ℚ
  max_temp : ℚ
  mean_temp : ℚ
deriving DecidableEq

/-- Minimum of a list of values, as pandas `min` over a group (groups are
never empty; the `[]` case is junk). -/
def listMin : List ℚ → ℚ
  | [] => 0
  | t :: ts => ts.foldl min t

/-- Maximum of a list of values, as pandas `max` over a group. -/
def listMax : List ℚ → ℚ
  | [] => 0
  | t :: ts => ts.foldl max t

/-- Mean of a list of values, as pandas `mean` over a group. -/
def listMean (l : List ℚ) : ℚ := l.sum / l.length

/-- The distinct dates of a table, ascending — `groupby('date')`'s sorted
group keys. -/
def group_dates (df : List Row) : List ℤ :=
  ((df.map dateOf).dedup).insertionSort (· ≤ ·)

/-- The `daily_stats` row for the group of date `d`. -/
def daily_stat (df : List Row) (d : ℤ) : DailyStat :=
  let temps := (df.filter (fun r => dateOf r = d)).map Row.temperature
  { date := d
    min_temp := listMin temps
    max_temp := listMax temps
    mean_temp := listMean temps }

/-- `daily_stats` (`task1.py` lines 242-246): group `df` by the date portion
of `datetime`, one output row per distinct date in ascending date order, with
min/max/mean of `temperature` per group. -/
def aggregateDaily (df : List Row) : List DailyStat :=
  (group_dates df).map (daily_stat df)

/-! ## Shape facts about the synthesized forecast, shared by the claims -/

theorem generate_demo_forecast_length (t0 : ℕ) (tN hN wN : ℕ → ℝ)
    (wc : ℕ → WeatherKind) :
    (generate_demo_forecast t0 tN hN wN wc).length = 40 := by
  simp [generate_demo_forecast]

theorem generate_demo_forecast_getD (t0 : ℕ) (tN hN wN : ℕ → ℝ)
    (wc : ℕ → WeatherKind) {i : ℕ} (hi : i < 40) :
    (generate_demo_forecast t0 tN hN wN wc).getD i default =
      demo_point t0 tN hN wN wc i := by
  simp [generate_demo_forecast, List.getD_eq_getElem?_getD, List.getElem?_map,
    List.getElem?_range, hi]

theorem mem_generate_demo_forecast (t0 : ℕ) (tN hN wN : ℕ → ℝ)
    (wc : ℕ → WeatherKind) {p : DemoPoint}
    (hp : p ∈ generate_demo_forecast t0 tN hN wN wc) :
    ∃ i, i < 40 ∧ p = demo_point t0 tN hN wN wc i := by
  simp only [generate_demo_forecast, List.mem_map, List.mem_range] at hp
  obtain ⟨i, hi, rfl⟩ := hp
  exact ⟨i, hi, rfl⟩

/-- C1: for every start time `t0` (and every noise draw), the synthesized
forecast has exactly 40 points; point `i` carries timestamp `t0 + i*3h`
(10800 s steps), so consecutive timestamps strictly increase by exactly
10800 s, from `t0` at point 0 to `t0 + 117h = t0 + 421200 s` at point 39. -/
theorem synthesized_forecast_timestamps (t0 : ℕ) (tN hN wN : ℕ → ℝ)
    (wc : ℕ → WeatherKind) :
    (generate_demo_forecast t0 tN hN wN wc).length = 40 ∧
    (∀ i, i < 40 →
      ((generate_demo_forecast t0 tN hN wN wc).getD i default).dt =
        t0 + 10800 * i) ∧
    (∀ i, i + 1 < 40 →
      ((generate_demo_forecast t0 tN hN wN wc).getD i default).dt <
        ((generate_demo_forecast t0 tN hN wN wc).getD (i + 1) default).dt ∧
      ((generate_demo_forecast t0 tN hN wN wc).getD (i + 1) default).dt =
        ((generate_demo_forecast t0 tN hN wN wc).getD i default).dt + 10800) ∧
    ((generate_demo_forecast t0 tN hN wN wc).getD 0 default).dt = t0 ∧
    ((generate_demo_forecast t0 tN hN wN wc).getD 39 default).dt =
      t0 + 421200 := by
  refine ⟨generate_demo_forecast_length t0 tN hN wN wc, ?_, ?_, ?_, ?_⟩
  · intro i hi
    rw [generate_demo_forecast_getD t0 tN hN wN wc hi]
    rfl
  · intro i hi
    rw [generate_demo_forecast_getD t0 tN hN wN wc hi,
      generate_demo_forecast_getD t0 tN hN wN wc (Nat.lt_of_succ_lt hi)]
    constructor
    · simp [demo_point]
    · simp [demo_point]
      ring
  · rw [generate_demo_forecast_getD t0 tN hN wN wc (by norm_num)]
    rfl
  · rw [generate_demo_forecast_getD t0 tN hN wN wc (by norm_num)]
    simp [demo_point]

/-- Witness for C1: at `t0 = 0` with zero noise, point 5 sits at
`5 * 10800 = 54000` seconds. -/
theorem synthesized_forecast_timestamps_witness :
    ((generate_demo_forecast 0 (fun _ => 0) (fun _ => 0) (fun _ => 0)
        (fun _ => WeatherKind.Clear)).getD 5 default).dt = 0 + 10800 * 5 :=
  (synthesized_forecast_timestamps 0 (fun _ => 0) (fun _ => 0) (fun _ => 0)
    (fun _ => WeatherKind.Clear)).2.1 5 (by norm_num)

/-- C2: a request failure in either fetch returns synthesized data and leaves
`use_demo = true`; once the flag is `true`, every subsequent fetch (whatever
the network would have answered) returns the synthesized data, keeps the flag
`true`, and performs zero network requests — a one-time, sticky fallback. -/
theorem fallback_is_sticky (t0 : ℕ) (tN hN wN : ℕ → ℝ)
    (wc : ℕ → WeatherKind) :
    fetch_current_weather false .exc = (generate_demo_current, true) ∧
    fetch_forecast t0 tN hN wN wc false .exc =
      (generate_demo_forecast t0 tN hN wN wc, true) ∧
    (∀ net : NetResult CurrentData,
      fetch_current_weather true net = (generate_demo_current, true) ∧
      current_weather_requests true net = 0) ∧
    (∀ net : NetResult (List DemoPoint),
      fetch_forecast t0 tN hN wN wc true net =
        (generate_demo_forecast t0 tN hN wN wc, true) ∧
      fetch_forecast_requests true net = 0) := by
  refine ⟨?_, ?_, ?_, ?_⟩
  · rw [fetch_current_weather, fetch_current_weather]
  · rw [fetch_forecast, fetch_forecast]
  · intro net
    exact ⟨by rw [fetch_current_weather], by rw [current_weather_requests]⟩
  · intro net
    exact ⟨by rw [fetch_forecast], by rw [fetch_forecast_requests]⟩

/-- C9: both fetch adapters terminate with self-recursion depth at most 1:
the failure handler sets the demo flag before recursing, and the demo branch
neither fails nor recurses. -/
theorem fetch_recursion_depth_le_one :
    ∀ (b : Bool) (netC : NetResult CurrentData)
      (netF : NetResult (List DemoPoint)),
      fetch_current_depth b netC ≤ 1 ∧ fetch_forecast_depth b netF ≤ 1 := by
  intro b netC netF
  constructor
  · cases b <;> cases netC <;> simp [fetch_current_depth]
  · cases b <;> cases netF <;> simp [fetch_forecast_depth]

/-- C10: a falsy forecast input (`None` or an empty record) makes
`process_forecast_data` return `None` without raising, and the
missing-data guard in `create_dashboard` then returns before rendering. -/
theorem falsy_forecast_aborts :
    process_forecast_data none = .ok none ∧
    ∀ cur : Option CurrentData, create_dashboard_from cur none = .ok none := by
  refine ⟨rfl, ?_⟩
  intro cur
  cases cur <;> rfl

/-! ## Normalizer lemmas -/

theorem process_item_eq_none_iff (p : RawPoint) :
    process_item p = none ↔ fields_complete p = false := by
  obtain ⟨dt, m, w, wl⟩ := p
  rcases dt with _ | dt <;> rcases m with _ | ⟨t, fl, hq, pr⟩ <;>
    rcases w with _ | ⟨ws⟩ <;> rcases wl with _ | ⟨wl⟩ <;>
    try simp [process_item, fields_complete]
  rcases wl with _ | ⟨⟨wm, wd⟩, rest⟩ <;>
    rcases t with _ | t <;> rcases fl with _ | fl <;> rcases hq with _ | hq <;>
    rcases pr with _ | pr <;> rcases ws with _ | ws <;>
    try simp [process_item, fields_complete]
  rcases wm with _ | wm <;> rcases wd with _ | wd <;>
    simp [process_item, fields_complete]

theorem process_item_datetime {p : RawPoint} {row : Row}
    (h : process_item p = some row) :
    p.dt.map datetime_fromtimestamp = some row.datetime := by
  unfold process_item at h
  repeat split at h
  all_goals cases h
  all_goals simp_all

theorem process_list_complete {l : List RawPoint}
    (h : ∀ p ∈ l, fields_complete p = true) :
    ∃ rows, process_list l = some rows ∧ rows.length = l.length ∧
      List.Forall₂
        (fun p row => p.dt.map datetime_fromtimestamp = some row.datetime)
        l rows := by
  induction l with
  | nil => exact ⟨[], rfl, rfl, List.Forall₂.nil⟩
  | cons p ps ih =>
    obtain ⟨rows, hrows, hlen, hall⟩ := ih fun q hq => h q (.tail p hq)
    have hp : fields_complete p = true := h p (.head ps)
    obtain ⟨row, hrow⟩ : ∃ row, process_item p = some row := by
      rcases hitem : process_item p with _ | row
      · rw [process_item_eq_none_iff p] at hitem
        rw [hp] at hitem
        cases hitem
      · exact ⟨row, rfl⟩
    refine ⟨row :: rows, ?_, by simp [hlen], ?_⟩
    · simp [process_list, hrow, hrows]
    · exact List.Forall₂.cons (process_item_datetime hrow) hall

theorem process_list_eq_none_iff (l : List RawPoint) :
    process_list l = none ↔ ∃ p ∈ l, fields_complete p = false := by
  induction l with
  | nil => simp [process_list]
  | cons p ps ih =>
    constructor
    · intro h
      simp only [process_list] at h
      rcases hitem : process_item p with _ | row
      · exact ⟨p, List.mem_cons_self p ps, (process_item_eq_none_iff p).mp hitem⟩
      · rw [hitem] at h
        rcases hps : process_list ps with _ | rows
        · obtain ⟨q, hq, hfc⟩ := ih.mp hps
          exact ⟨q, List.mem_cons_of_mem p hq, hfc⟩
        · rw [hps] at h
          simp at h
    · rintro ⟨q, hq, hfc⟩
      simp only [process_list]
      rcases List.mem_cons.mp hq with rfl | hq'
      · rw [(process_item_eq_none_iff q).mpr hfc]
      · rw [ih.mpr ⟨q, hq', hfc⟩]
        rcases process_item p with _ | row <;> rfl

/-- C3: on a well-formed forecast with `N` points (the `'list'` field present
and every expected per-point field present), `process_forecast_data` yields
exactly `N` rows, pairing input point `i` with output row `i` (`Forall₂`),
and each row's timestamp is the calendar decoding of that point's `dt` epoch
field. -/
theorem normalize_preserves_points (l : List RawPoint)
    (h : ∀ p ∈ l, fields_complete p = true) :
    ∃ rows,
      process_forecast_data (some (RawForecast.mk (some l))) =
        .ok (some rows) ∧
      rows.length = l.length ∧
      List.Forall₂
        (fun p row => p.dt.map datetime_fromtimestamp = some row.datetime)
        l rows := by
  obtain ⟨rows, hrows, hlen, hall⟩ := process_list_complete h
  exact ⟨rows, by simp [process_forecast_data, hrows], hlen, hall⟩

/-- Witness for C3: a one-point forecast with all fields present normalizes
to one row whose timestamp decodes `dt = 7`. -/
theorem normalize_preserves_points_witness :
    (∀ p ∈ [RawPoint.mk (some 7)
        (some (RawMain.mk (some 1) (some 2) (some 3) (some 4)))
        (some (RawWind.mk (some 5)))
        (some [RawWeather.mk (some "Rain") (some "wet")])],
      fields_complete p = true) ∧
    ∃ rows,
      process_forecast_data (some (RawForecast.mk (some [RawPoint.mk (some 7)
          (some (RawMain.mk (some 1) (some 2) (some 3) (some 4)))
          (some (RawWind.mk (some 5)))
          (some [RawWeather.mk (some "Rain") (some "wet")])]))) =
        .ok (some rows) ∧
      rows.length = 1 ∧
      List.Forall₂
        (fun p row => p.dt.map datetime_fromtimestamp = some row.datetime)
        [RawPoint.mk (some 7)
          (some (RawMain.mk (some 1) (some 2) (some 3) (some 4)))
          (some (RawWind.mk (some 5)))
          (some [RawWeather.mk (some "Rain") (some "wet")])] rows :=
  ⟨by decide, normalize_preserves_points _ (by decide)⟩

/-- C4 counterexample: `MissingFieldError` is not equivalent to a field being
absent from an input point.  The truthy record `{}`-with-no-`'list'`
(`RawForecast.mk none`) passes the falsy guard of line 118, then line 122's
`forecast_data['list']` raises — an error with no input point at fault, so
the claimed only-if direction fails at this concrete input. -/
theorem missing_field_error_not_pointwise :
    ¬ ∀ fd : RawForecast,
        process_forecast_data (some fd) = .error .mk ↔
        ∃ l, fd.list = some l ∧ ∃ p ∈ l, fields_complete p = false := by
  intro h
  obtain ⟨l, hl, -⟩ := (h (RawForecast.mk none)).mp rfl
  cases hl

/-- C4 amended: `process_forecast_data` fails with `MissingFieldError`
exactly when the truthy input record lacks the `'list'` field, or some
expected field (including the first element of the per-point conditions
list) is absent from an input point; the error is not caught in
`create_dashboard`, so it propagates and aborts the run. -/
theorem missing_field_error_iff (fd : RawForecast) (cur : CurrentData) :
    (process_forecast_data (some fd) = .error .mk ↔
      fd.list = none ∨
        ∃ l, fd.list = some l ∧ ∃ p ∈ l, fields_complete p = false) ∧
    (process_forecast_data (some fd) = .error .mk →
      create_dashboard_from (some cur) (some fd) = .error .mk) := by
  constructor
  · rcases hfd : fd.list with _ | l
    · simp only [process_forecast_data, hfd]
      simp
    · simp only [process_forecast_data, hfd]
      rcases hl : process_list l with _ | rows <;>
        simp [hl, ← process_list_eq_none_iff, hfd]
  · intro herr
    simpa [create_dashboard_from] using herr

/-- Witness for the amended C4: a record without `'list'` and a record whose
single point misses all its fields both make normalization fail, and the
error propagates out of `create_dashboard`. -/
theorem missing_field_error_iff_witness :
    process_forecast_data (some (RawForecast.mk none)) = .error .mk ∧
    process_forecast_data
        (some (RawForecast.mk (some [RawPoint.mk none none none none]))) =
      .error .mk ∧
    create_dashboard_from (some generate_demo_current)
        (some (RawForecast.mk (some [RawPoint.mk none none none none]))) =
      .error .mk := by
  have h0 := missing_field_error_iff (RawForecast.mk none)
    generate_demo_current
  have h := missing_field_error_iff
    (RawForecast.mk (some [RawPoint.mk none none none none]))
    generate_demo_current
  have herr := h.1.mpr (Or.inr
    ⟨[RawPoint.mk none none none none], rfl,
      RawPoint.mk none none none none, by decide⟩)
  exact ⟨h0.1.mpr (Or.inl rfl), herr, h.2 herr⟩

/-! ## Humidity / pressure: truncation, not rounding (C5), and ranges (C6) -/

/-- C5 counterexample: at point `i = 0` with a legal noise draw of `0.7`, the
code's humidity (`int(...)`, truncation) is 60, while rounding to the nearest
integer gives 61 — so the integer fields are not produced by rounding. -/
theorem humidity_not_rounded :
    (-5 : ℝ) < 7 / 10 ∧ (7 / 10 : ℝ) < 5 ∧
    humidity_demo 0 (7 / 10) = 60 ∧
    round ((60 : ℝ) + 20 * Real.sin ((0 : ℕ) * Real.pi / 12) + 7 / 10) = 61 ∧
    humidity_demo 0 (7 / 10) ≠
      round ((60 : ℝ) + 20 * Real.sin ((0 : ℕ) * Real.pi / 12) + 7 / 10) := by
  have hsin : Real.sin ((0 : ℕ) * Real.pi / 12) = 0 := by
    norm_num
  have hval : (60 : ℝ) + 20 * Real.sin ((0 : ℕ) * Real.pi / 12) + 7 / 10 =
      60 + 7 / 10 := by
    rw [hsin]; ring
  have h60 : humidity_demo 0 (7 / 10) = 60 := by
    unfold humidity_demo pyInt
    rw [hval, if_pos (by norm_num : (0 : ℝ) ≤ 60 + 7 / 10),
      Int.floor_eq_iff]
    constructor <;> norm_num
  have h61 : round ((60 : ℝ) + 20 * Real.sin ((0 : ℕ) * Real.pi / 12) + 7 / 10)
      = 61 := by
    rw [hval, round_eq, Int.floor_eq_iff]
    constructor <;> norm_num
  exact ⟨by norm_num, by norm_num, h60, h61, by rw [h60, h61]; decide⟩

/-- C5 amended: for every point index and every in-range noise draw, the
integer humidity is the truncation (floor, as the operand is positive) of
`60 + 20*sin(i*pi/12) + noise`, and the integer pressure is the truncation of
`1010 + 10*sin(i*pi/20)`: the value lies in `[n, n+1)` above the integer
field `n`, rather than within half a unit of it. -/
theorem demo_int_fields_truncated (i : ℕ) (noise : ℝ)
    (h1 : -5 < noise) (h2 : noise < 5) :
    humidity_demo i noise = ⌊60 + 20 * Real.sin (i * Real.pi / 12) + noise⌋ ∧
    ((humidity_demo i noise : ℝ) ≤
        60 + 20 * Real.sin (i * Real.pi / 12) + noise ∧
      60 + 20 * Real.sin (i * Real.pi / 12) + noise <
        humidity_demo i noise + 1) ∧
    pressure_demo i = ⌊1010 + 10 * Real.sin (i * Real.pi / 20)⌋ ∧
    ((pressure_demo i : ℝ) ≤ 1010 + 10 * Real.sin (i * Real.pi / 20) ∧
      1010 + 10 * Real.sin (i * Real.pi / 20) < pressure_demo i + 1) := by
  have hs1 : (-1 : ℝ) ≤ Real.sin (i * Real.pi / 12) := Real.neg_one_le_sin _
  have hs2 : (-1 : ℝ) ≤ Real.sin (i * Real.pi / 20) := Real.neg_one_le_sin _
  have hpos1 : (0 : ℝ) ≤ 60 + 20 * Real.sin (i * Real.pi / 12) + noise := by
    nlinarith
  have hpos2 : (0 : ℝ) ≤ 1010 + 10 * Real.sin (i * Real.pi / 20) := by
    nlinarith
  have e1 : humidity_demo i noise =
      ⌊60 + 20 * Real.sin (i * Real.pi / 12) + noise⌋ := by
    unfold humidity_demo pyInt
    rw [if_pos hpos1]
  have e2 : pressure_demo i = ⌊1010 + 10 * Real.sin (i * Real.pi / 20)⌋ := by
    unfold pressure_demo pyInt
    rw [if_pos hpos2]
  refine ⟨e1, ⟨?_, ?_⟩, e2, ?_, ?_⟩
  · rw [e1]; exact Int.floor_le _
  · rw [e1]; exact Int.lt_floor_add_one _
  · rw [e2]; exact Int.floor_le _
  · rw [e2]; exact Int.lt_floor_add_one _

/-- Witness for the amended C5: point 0 with noise 0 has humidity
`⌊60⌋ = 60` and the floor bracketing holds. -/
theorem demo_int_fields_truncated_witness :
    (-5 : ℝ) < 0 ∧ (0 : ℝ) < 5 ∧
    (humidity_demo 0 0 = ⌊60 + 20 * Real.sin ((0 : ℕ) * Real.pi / 12) + 0⌋ ∧
      ((humidity_demo 0 0 : ℝ) ≤
          60 + 20 * Real.sin ((0 : ℕ) * Real.pi / 12) + 0 ∧
        60 + 20 * Real.sin ((0 : ℕ) * Real.pi / 12) + 0 <
          humidity_demo 0 0 + 1) ∧
      pressure_demo 0 = ⌊1010 + 10 * Real.sin ((0 : ℕ) * Real.pi / 20)⌋ ∧
      ((pressure_demo 0 : ℝ) ≤ 1010 + 10 * Real.sin ((0 : ℕ) * Real.pi / 20) ∧
        1010 + 10 * Real.sin ((0 : ℕ) * Real.pi / 20) < pressure_demo 0 + 1)) :=
  ⟨by norm_num, by norm_num,
    demo_int_fields_truncated 0 0 (by norm_num) (by norm_num)⟩

/-- C6: in every synthesized forecast series, for every noise draw within the
documented `(-5, 5)` bound, every point's humidity lies in `[0, 100]` (hence
in particular at least 95% of points do) and every point's pressure lies in
`[990, 1030]`. -/
theorem demo_ranges (t0 : ℕ) (tN hN wN : ℕ → ℝ) (wc : ℕ → WeatherKind)
    (hb : ∀ i, -5 < hN i ∧ hN i < 5) :
    ∀ p ∈ generate_demo_forecast t0 tN hN wN wc,
      0 ≤ p.main.humidity ∧ p.main.humidity ≤ 100 ∧
      990 ≤ p.main.pressure ∧ p.main.pressure ≤ 1030 := by
  intro p hp
  obtain ⟨i, hi, rfl⟩ := mem_generate_demo_forecast t0 tN hN wN wc hp
  have hs1 : (-1 : ℝ) ≤ Real.sin (i * Real.pi / 12) := Real.neg_one_le_sin _
  have hs1' : Real.sin (i * Real.pi / 12) ≤ 1 := Real.sin_le_one _
  have hs2 : (-1 : ℝ) ≤ Real.sin (i * Real.pi / 20) := Real.neg_one_le_sin _
  have hs2' : Real.sin (i * Real.pi / 20) ≤ 1 := Real.sin_le_one _
  obtain ⟨hn1, hn2⟩ := hb i
  have e := demo_int_fields_truncated i (hN i) hn1 hn2
  refine ⟨?_, ?_, ?_, ?_⟩
  · show (0 : ℤ) ≤ humidity_demo i (hN i)
    rw [e.1]
    exact Int.le_floor.mpr (by push_cast; nlinarith)
  · show humidity_demo i (hN i) ≤ 100
    rw [e.1]
    have : (60 : ℝ) + 20 * Real.sin (i * Real.pi / 12) + hN i < 101 := by
      nlinarith
    exact Int.le_of_lt_add_one (Int.floor_lt.mpr (by push_cast; nlinarith))
  · show (990 : ℤ) ≤ pressure_demo i
    rw [e.2.2.1]
    exact Int.le_floor.mpr (by push_cast; nlinarith)
  · show pressure_demo i ≤ 1030
    rw [e.2.2.1]
    exact Int.le_of_lt_add_one (Int.floor_lt.mpr (by push_cast; nlinarith))

/-- Witness for C6: with zero noise, point 0 of the series starting at
`t0 = 0` has humidity in `[0, 100]` and pressure in `[990, 1030]`. -/
theorem demo_ranges_witness :
    0 ≤ (demo_point 0 (fun _ => 0) (fun _ => 0) (fun _ => 0)
        (fun _ => WeatherKind.Clear) 0).main.humidity ∧
    (demo_point 0 (fun _ => 0) (fun _ => 0) (fun _ => 0)
        (fun _ => WeatherKind.Clear) 0).main.humidity ≤ 100 ∧
    990 ≤ (demo_point 0 (fun _ => 0) (fun _ => 0) (fun _ => 0)
        (fun _ => WeatherKind.Clear) 0).main.pressure ∧
    (demo_point 0 (fun _ => 0) (fun _ => 0) (fun _ => 0)
        (fun _ => WeatherKind.Clear) 0).main.pressure ≤ 1030 :=
  demo_ranges 0 (fun _ => 0) (fun _ => 0) (fun _ => 0)
    (fun _ => WeatherKind.Clear) (fun _ => by norm_num)
    (demo_point 0 (fun _ => 0) (fun _ => 0) (fun _ => 0)
      (fun _ => WeatherKind.Clear) 0)
    (by
      simp only [generate_demo_forecast, List.mem_map, List.mem_range]
      exact ⟨0, by norm_num, rfl⟩)

/-! ## Daily-aggregation lemmas -/

theorem foldl_min_le_init (a : ℚ) (l : List ℚ) : l.foldl min a ≤ a := by
  induction l generalizing a with
  | nil => exact le_refl a
  | cons x xs ih =>
    exact le_trans (ih (min a x)) (min_le_left a x)

theorem foldl_min_le_mem {x : ℚ} {l : List ℚ} (hx : x ∈ l) (a : ℚ) :
    l.foldl min a ≤ x := by
  induction l generalizing a with
  | nil => cases hx
  | cons y ys ih =>
    rcases List.mem_cons.mp hx with rfl | hx'
    · exact le_trans (foldl_min_le_init (min a x) ys) (min_le_right a x)
    · exact ih hx' (min a y)

theorem le_foldl_max_init (a : ℚ) (l : List ℚ) : a ≤ l.foldl max a := by
  induction l generalizing a with
  | nil => exact le_refl a
  | cons x xs ih =>
    exact le_trans (le_max_left a x) (ih (max a x))

theorem le_foldl_max_mem {x : ℚ} {l : List ℚ} (hx : x ∈ l) (a : ℚ) :
    x ≤ l.foldl max a := by
  induction l generalizing a with
  | nil => cases hx
  | cons y ys ih =>
    rcases List.mem_cons.mp hx with rfl | hx'
    · exact le_trans (le_max_right a x) (le_foldl_max_init (max a x) ys)
    · exact ih hx' (max a y)

theorem listMin_le {l : List ℚ} (hl : l ≠ []) {x : ℚ} (hx : x ∈ l) :
    listMin l ≤ x := by
  cases l with
  | nil => cases hl rfl
  | cons t ts =>
    rcases List.mem_cons.mp hx with rfl | hx'
    · exact foldl_min_le_init x ts
    · exact foldl_min_le_mem hx' t

theorem le_listMax {l : List ℚ} (hl : l ≠ []) {x : ℚ} (hx : x ∈ l) :
    x ≤ listMax l := by
  cases l with
  | nil => cases hl rfl
  | cons t ts =>
    rcases List.mem_cons.mp hx with rfl | hx'
    · exact le_foldl_max_init x ts
    · exact le_foldl_max_mem hx' t

theorem listMin_le_listMean {l : List ℚ} (hl : l ≠ []) :
    listMin l ≤ listMean l := by
  have hlen : 0 < (l.length : ℚ) := by
    have := List.length_pos.mpr hl
    exact_mod_cast this
  rw [listMean, le_div_iff₀ hlen, mul_comm]
  have := List.card_nsmul_le_sum l (listMin l) (fun x hx => listMin_le hl hx)
  simpa [nsmul_eq_mul] using this

theorem listMean_le_listMax {l : List ℚ} (hl : l ≠ []) :
    listMean l ≤ listMax l := by
  have hlen : 0 < (l.length : ℚ) := by
    have := List.length_pos.mpr hl
    exact_mod_cast this
  rw [listMean, div_le_iff₀ hlen, mul_comm]
  have := List.sum_le_card_nsmul l (listMax l) (fun x hx => le_listMax hl hx)
  simpa [nsmul_eq_mul] using this

theorem mem_group_dates {df : List Row} {d : ℤ} (hd : d ∈ group_dates df) :
    d ∈ df.map dateOf := by
  unfold group_dates at hd
  exact List.mem_dedup.mp
    (((df.map dateOf).dedup.perm_insertionSort (· ≤ ·)).mem_iff.mp hd)

theorem group_filter_ne_nil {df : List Row} {d : ℤ}
    (hd : d ∈ group_dates df) :
    df.filter (fun r => dateOf r = d) ≠ [] := by
  obtain ⟨r, hr, hrd⟩ := List.mem_map.mp (mem_group_dates hd)
  intro hcon
  have : r ∈ df.filter (fun r => dateOf r = d) :=
    List.mem_filter.mpr ⟨hr, by simp [hrd]⟩
  rw [hcon] at this
  cases this

theorem group_dates_sorted (df : List Row) :
    (group_dates df).Sorted (· < ·) := by
  have hsorted : (group_dates df).Sorted (· ≤ ·) :=
    List.sorted_insertionSort (· ≤ ·) (df.map dateOf).dedup
  have hnodup : (group_dates df).Nodup :=
    ((df.map dateOf).dedup.perm_insertionSort (· ≤ ·)).nodup_iff.mpr
      (df.map dateOf).nodup_dedup
  exact hsorted.lt_of_le hnodup

/-- C7: on a non-empty table, the daily aggregation produces rows of exactly
`{date, min_temp, max_temp, mean_temp}` (the `DailyStat` type), one per
distinct calendar date of the input (grouping by the date portion of the
timestamp), dates strictly ascending, and in every output row
`min_temp ≤ mean_temp ≤ max_temp`. -/
theorem aggregateDaily_spec (df : List Row) (hdf : df ≠ []) :
    ((aggregateDaily df).map DailyStat.date).Sorted (· < ·) ∧
    ((aggregateDaily df).map DailyStat.date).Perm (df.map dateOf).dedup ∧
    (∀ s ∈ aggregateDaily df,
      (∀ r ∈ df, dateOf r = s.date → s.min_temp ≤ r.temperature ∧
        r.temperature ≤ s.max_temp) ∧
      s.min_temp ≤ s.mean_temp ∧ s.mean_temp ≤ s.max_temp) := by
  have hmap : (aggregateDaily df).map DailyStat.date = group_dates df := by
    unfold aggregateDaily
    rw [List.map_map]
    have hid : DailyStat.date ∘ daily_stat df = id := funext fun d => rfl
    rw [hid, List.map_id]
  refine ⟨?_, ?_, ?_⟩
  · rw [hmap]; exact group_dates_sorted df
  · rw [hmap]; exact (df.map dateOf).dedup.perm_insertionSort (· ≤ ·)
  · intro s hs
    obtain ⟨d, hd, rfl⟩ := List.mem_map.mp hs
    have hne : (df.filter (fun r => dateOf r = d)).map Row.temperature ≠ [] := by
      intro hcon
      exact group_filter_ne_nil hd (List.map_eq_nil_iff.mp hcon)
    refine ⟨?_, listMin_le_listMean hne, listMean_le_listMax hne⟩
    intro r hr hrd
    have hrd' : dateOf r = d := hrd
    have hrmem : r.temperature ∈
        (df.filter (fun x => dateOf x = d)).map Row.temperature :=
      List.mem_map.mpr ⟨r, List.mem_filter.mpr ⟨hr, by simp [hrd']⟩, rfl⟩
    exact ⟨listMin_le hne hrmem, le_listMax hne hrmem⟩

/-- Witness for C7: a one-row table aggregates to a sorted one-group table
with `min_temp ≤ mean_temp ≤ max_temp`. -/
theorem aggregateDaily_spec_witness :
    ([Row.mk 0 1 0 0 0 0 "x" "y"] ≠ []) ∧
    (((aggregateDaily [Row.mk 0 1 0 0 0 0 "x" "y"]).map
        DailyStat.date).Sorted (· < ·) ∧
      ((aggregateDaily [Row.mk 0 1 0 0 0 0 "x" "y"]).map
        DailyStat.date).Perm
        (([Row.mk 0 1 0 0 0 0 "x" "y"]).map dateOf).dedup ∧
      (∀ s ∈ aggregateDaily [Row.mk 0 1 0 0 0 0 "x" "y"],
        (∀ r ∈ [Row.mk 0 1 0 0 0 0 "x" "y"], dateOf r = s.date →
          s.min_temp ≤ r.temperature ∧ r.temperature ≤ s.max_temp) ∧
        s.min_temp ≤ s.mean_temp ∧ s.mean_temp ≤ s.max_temp)) :=
  ⟨List.cons_ne_nil _ _,
    aggregateDaily_spec [Row.mk 0 1 0 0 0 0 "x" "y"] (List.cons_ne_nil _ _)⟩

theorem filter_dateOf_singleton {df : List Row}
    (h : (df.map dateOf).Nodup) {r : Row} (hr : r ∈ df) :
    df.filter (fun x => dateOf x = dateOf r) = [r] := by
  induction df with
  | nil => cases hr
  | cons a t ih =>
    rw [List.map_cons, List.nodup_cons] at h
    obtain ⟨ha, ht⟩ := h
    rcases List.mem_cons.mp hr with rfl | hr'
    · rw [List.filter_cons_of_pos (by simp)]
      rw [List.filter_eq_nil_iff.mpr ?_]
      intro x hx
      simp only [decide_eq_true_eq]
      intro hcon
      exact ha (hcon ▸ List.mem_map_of_mem dateOf hx)
    · rw [List.filter_cons_of_neg ?_, ih ht hr']
      simp only [decide_eq_true_eq]
      intro hcon
      exact ha (hcon ▸ List.mem_map_of_mem dateOf hr')

theorem daily_stat_of_singleton {df : List Row}
    (h : (df.map dateOf).Nodup) {r : Row} (hr : r ∈ df) :
    daily_stat df (dateOf r) =
      DailyStat.mk (dateOf r) r.temperature r.temperature r.temperature := by
  unfold daily_stat
  rw [filter_dateOf_singleton h hr]
  simp [listMin, listMax, listMean]

/-- C8: daily grouping is idempotent.  On a table with at most one row per
calendar date, every group is a singleton, so each aggregated row carries
`min_temp = max_temp = mean_temp =` the existing temperature of a unique
matching input row; if such a table is moreover date-sorted (as any
already-aggregated-by-day table is), re-grouping reproduces the table
row for row. -/
theorem aggregateDaily_idempotent (df : List Row)
    (h : (df.map dateOf).Nodup) :
    (∀ s ∈ aggregateDaily df, ∃ r ∈ df, dateOf r = s.date ∧
      s.min_temp = r.temperature ∧ s.max_temp = r.temperature ∧
      s.mean_temp = r.temperature) ∧
    ((df.map dateOf).Sorted (· ≤ ·) →
      aggregateDaily df = df.map (fun r =>
        DailyStat.mk (dateOf r) r.temperature r.temperature r.temperature)) := by
  constructor
  · intro s hs
    obtain ⟨d, hd, rfl⟩ := List.mem_map.mp hs
    obtain ⟨r, hr, hrd⟩ := List.mem_map.mp (mem_group_dates hd)
    refine ⟨r, hr, hrd, ?_⟩
    have := daily_stat_of_singleton h hr
    rw [hrd] at this
    rw [this]
    exact ⟨rfl, rfl, rfl⟩
  · intro hsorted
    unfold aggregateDaily group_dates
    rw [List.dedup_eq_self.mpr h, hsorted.insertionSort_eq, List.map_map]
    refine List.map_congr_left ?_
    intro r hr
    exact daily_stat_of_singleton h hr

/-- Witness for C8: a two-row, two-date, date-sorted table re-aggregates to
itself (each stat equal to the row's temperature). -/
theorem aggregateDaily_idempotent_witness :
    (([Row.mk 0 3 0 0 0 0 "a" "b",
        Row.mk 86400 5 0 0 0 0 "c" "d"].map dateOf).Nodup ∧
      ([Row.mk 0 3 0 0 0 0 "a" "b",
        Row.mk 86400 5 0 0 0 0 "c" "d"].map dateOf).Sorted (· ≤ ·)) ∧
    aggregateDaily [Row.mk 0 3 0 0 0 0 "a" "b",
        Row.mk 86400 5 0 0 0 0 "c" "d"] =
      [DailyStat.mk 0 3 3 3, DailyStat.mk 1 5 5 5] := by
  have hnd : ([Row.mk 0 3 0 0 0 0 "a" "b",
      Row.mk 86400 5 0 0 0 0 "c" "d"].map dateOf).Nodup := by
    simp [dateOf]
  have hs : ([Row.mk 0 3 0 0 0 0 "a" "b",
      Row.mk 86400 5 0 0 0 0 "c" "d"].map dateOf).Sorted (· ≤ ·) := by
    simp [dateOf]
  refine ⟨⟨hnd, hs⟩, ?_⟩
  rw [(aggregateDaily_idempotent _ hnd).2 hs]
  simp [dateOf]

end Task1
